import Mathlib

/-!
Shallow embedding of the xk6-slack extension (package `slack`).

The embedding covers the two client variants found in the sources:
the `(token, channel)` client of `slack.go` with `SendMessage` and
`SendTestResults`, and the `(token, Config, user)` client of the second
source file with `Configure`, `createDashboardLinks`, `createButtonBlocks`,
`createGraphBlocks`, `SendMessage` and `AddTestMetrics`.

Modelling conventions:
* JSON values are the inductive `JsonVal`; numbers carry an exact rational
  value (Go stores JSON numbers as `float64` in `interface` positions).
* Go maps appear as association lists; map iteration is modelled as the
  insertion order of the list (the source iterates Go maps, whose order is
  unspecified; none of the proved properties depends on the order).
* `fmt.Sprintf` with verbs `%.2f` and `%.0f` is modelled by exact rational
  rounding to the nearest (ties rounded up); all concrete values proved
  about are far from ties, where the Go float formatting agrees.
* The network call `PostMessage` is an external collaborator: a send
  operation is represented by the `SendOutcome` value that records what
  would be posted (channel plus blocks or text), and errors are explicit
  constructors.
-/

namespace XK6Slack

/-- A JSON value, as produced by `json.Marshal`/`json.Unmarshal` of the
dynamic `interface` data handed to `SendTestResults`. -/
inductive JsonVal where
  | jnull
  | jbool (b : Bool)
  | jnum (q : ℚ)
  | jstr (s : String)
  | jarr (elems : List JsonVal)
  | jobj (fields : List (String × JsonVal))
  deriving Repr

/-- Association-list lookup, the model of Go map indexing `m[k]`. -/
def lookupStr {α : Type} (kvs : List (String × α)) (k : String) : Option α :=
  (kvs.find? (fun p => p.1 == k)).map (fun p => p.2)

/-- Struct `K6Metric` of `slack.go`: `Contains string`, `Values map[string]interface`,
`Type string`. -/
structure K6Metric where
  contains : String
  values : List (String × JsonVal)
  type : String
  deriving Repr

/-- One entry of `K6Data.RootGroup.Checks`: `Name string`, `Passes int64`,
`Fails int64`. -/
structure K6Check where
  name : String
  passes : ℤ
  fails : ℤ
  deriving Repr

/-- Struct `K6Data` of `slack.go`: the typed shape the raw document is unmarshalled
into. -/
structure K6Data where
  metrics : List (String × K6Metric)
  checks : List K6Check
  deriving Repr

/-- Struct `CheckResult` of `slack.go`. -/
structure CheckResult where
  passes : ℤ
  fails : ℤ
  rate : String
  deriving Repr, DecidableEq

/-- Model of `fmt.Sprintf "%.2f"`: two decimal digits, modelled by rounding
`q * 100` to the nearest integer. -/
def fmt2 (q : ℚ) : String :=
  let n : ℤ := round (q * 100)
  let sign := if n < 0 then "-" else ""
  let m : ℕ := n.natAbs
  sign ++ toString (m / 100) ++ "." ++ (if m % 100 < 10 then "0" else "") ++ toString (m % 100)

/-- Model of `fmt.Sprintf "%.0f"`: no decimal digits. -/
def fmt0 (q : ℚ) : String :=
  toString (round q : ℤ)

/-- Function `formatNumber` of `slack.go`. -/
def formatNumber (num : ℚ) : String :=
  fmt2 num

/-- Function `formatDuration` of `slack.go`. -/
def formatDuration (value : ℚ) : String :=
  fmt2 value ++ "ms"

/-- The closure `getMetricValue` inside `SendTestResults`: two-level lookup
into the metrics map followed by a `float64` type assertion; every failing
step yields `0`. -/
def getMetricValue (d : K6Data) (metricName valueName : String) : ℚ :=
  match lookupStr d.metrics metricName with
  | some metric =>
    match lookupStr metric.values valueName with
    | some (JsonVal.jnum q) => q
    | _ => 0
  | none => 0

/-- The twenty `results.Metrics` entries of `SendTestResults`, in the
order the source assigns them. -/
def extractMetrics (d : K6Data) : List (String × String) :=
  [("Response Time (avg)", formatDuration (getMetricValue d "http_req_duration" "avg")),
   ("Response Time (min)", formatDuration (getMetricValue d "http_req_duration" "min")),
   ("Response Time (med)", formatDuration (getMetricValue d "http_req_duration" "med")),
   ("Response Time (max)", formatDuration (getMetricValue d "http_req_duration" "max")),
   ("Response Time (p90)", formatDuration (getMetricValue d "http_req_duration" "p(90)")),
   ("Response Time (p95)", formatDuration (getMetricValue d "http_req_duration" "p(95)")),
   ("Time to First Byte (avg)", formatDuration (getMetricValue d "http_req_waiting" "avg")),
   ("Connection Time (avg)", formatDuration (getMetricValue d "http_req_connecting" "avg")),
   ("TLS Handshake (avg)", formatDuration (getMetricValue d "http_req_tls_handshaking" "avg")),
   ("Sending Time (avg)", formatDuration (getMetricValue d "http_req_sending" "avg")),
   ("Receiving Time (avg)", formatDuration (getMetricValue d "http_req_receiving" "avg")),
   ("Blocking Time (avg)", formatDuration (getMetricValue d "http_req_blocked" "avg")),
   ("Data Received", fmt2 (getMetricValue d "data_received" "rate" / 1024) ++ " KB/s"),
   ("Data Sent", fmt2 (getMetricValue d "data_sent" "rate" / 1024) ++ " KB/s"),
   ("Total Requests", fmt0 (getMetricValue d "http_reqs" "count")),
   ("Request Rate", fmt2 (getMetricValue d "http_reqs" "rate") ++ "/s"),
   ("Iterations", fmt0 (getMetricValue d "iterations" "count")),
   ("Iteration Rate", fmt2 (getMetricValue d "iterations" "rate") ++ "/s"),
   ("Virtual Users", fmt0 (getMetricValue d "vus" "value")),
   ("Success Rate", fmt2 (100 - getMetricValue d "http_req_failed" "rate" * 100) ++ "%")]

/-- Field `results.Status` after the `failRate > 0` test of `SendTestResults`. -/
def overallStatus (d : K6Data) : String :=
  if getMetricValue d "http_req_failed" "rate" > 0 then "failed" else "passed"

/-- The per-check rate string of `SendTestResults`: starts at `"100%"` and is
replaced by the percentage only when `total > 0`. -/
def checkRate (passes fails : ℤ) : String :=
  let total : ℚ := ((passes + fails : ℤ) : ℚ)
  if 0 < total then fmt2 ((passes : ℚ) / total * 100) ++ "%" else "100%"

/-- Go map insertion `m[k] = v`: replace an existing binding, otherwise
append. -/
def upsert (m : List (String × CheckResult)) (k : String) (v : CheckResult) :
    List (String × CheckResult) :=
  if m.any (fun p => p.1 == k) then
    m.map (fun p => if p.1 == k then (k, v) else p)
  else m ++ [(k, v)]

/-- The `results.Checks` map built by the check loop of `SendTestResults`. -/
def extractChecks (d : K6Data) : List (String × CheckResult) :=
  d.checks.foldl
    (fun acc c => upsert acc c.name ⟨c.passes, c.fails, checkRate c.passes c.fails⟩) []

/-- A button accessory: `NewButtonBlockElement("", name, "View Dashboard
:bar_chart:").WithURL(url)` wrapped in `NewAccessory`. -/
structure Accessory where
  value : String
  url : String
  deriving Repr, DecidableEq

/-- The Slack blocks the sources construct.  `sectionB t fs a` models
`NewSectionBlock(text, fields, accessory)` with text objects reduced to
their text; `imageB url alt title` models `NewImageBlock(url, altText, "",
titleObj)`. -/
inductive Block where
  | headerB (text : String)
  | divider
  | sectionB (text : Option String) (fields : List String) (accessory : Option Accessory)
  | imageB (url : String) (altText : String) (title : String)
  deriving Repr, DecidableEq

/-- The field-accumulating loop of `SendTestResults`: append one field at a
time, flush the group as a section whenever it reaches 10 fields, and flush
the non-empty remainder at the end.  `acc` is the `fields` slice, `rest`
the values still to visit; the result is the list of emitted groups. -/
def chunkLoop {α : Type} (acc : List α) (rest : List α) : List (List α) :=
  match rest with
  | [] => if acc.length = 0 then [] else [acc]
  | x :: xs =>
    if (acc ++ [x]).length = 10 then (acc ++ [x]) :: chunkLoop [] xs
    else chunkLoop (acc ++ [x]) xs

/-- Grouping as performed by the metrics and checks loops of
`SendTestResults` (empty starting slice). -/
def chunk10 {α : Type} (l : List α) : List (List α) :=
  chunkLoop [] l

/-- One metric field: `fmt.Sprintf("*%s*\n%s", name, value)`. -/
def metricField (p : String × String) : String :=
  "*" ++ p.1 ++ "*\n" ++ p.2

/-- One check field:
`fmt.Sprintf("*%s*\n✓ %d | ✗ %d | Rate: %s", name, passes, fails, rate)`. -/
def checkField (p : String × CheckResult) : String :=
  "*" ++ p.1 ++ "*\n✓ " ++ toString p.2.passes ++ " | ✗ " ++ toString p.2.fails ++
    " | Rate: " ++ p.2.rate

/-- The full block sequence `SendTestResults` builds from a parsed
document, in source order: header, divider, status and environment
sections, divider, metrics title, metric field-groups, and, when checks
exist, a divider, the checks title and the check field-groups. -/
def buildTestResultBlocks (d : K6Data) : List Block :=
  let status := overallStatus d
  let statusEmoji := if status ≠ "passed" then "❌" else "✅"
  let metrics := extractMetrics d
  let checks := extractChecks d
  [Block.headerB "Performance Test Results: API Performance Test",
   Block.divider,
   Block.sectionB (some ("*Status:* " ++ status ++ " " ++ statusEmoji)) [] none,
   Block.sectionB (some "*Environment:* staging") [] none,
   Block.divider,
   Block.sectionB (some "*Test Metrics:*") [] none]
  ++ (chunk10 (metrics.map metricField)).map (fun fs => Block.sectionB none fs none)
  ++ (if checks.isEmpty then [] else
      [Block.divider, Block.sectionB (some "*Checks Results:*") [] none]
      ++ (chunk10 (checks.map checkField)).map (fun fs => Block.sectionB none fs none))

/-!  JSON decoding: the `json.Marshal` / `json.Unmarshal` round trip of
`SendTestResults`.  The dynamic input is modelled as a `JsonVal` (for such
values marshalling cannot fail), and decoding into `K6Data` follows the
`encoding/json` rules for the struct: a missing or `null` field keeps the
zero value, a present field of the wrong shape is an error (`none`),
unknown fields are ignored. -/

/-- Decode a JSON value into a Go `string` field. -/
def decodeString : JsonVal → Option String
  | JsonVal.jstr s => some s
  | JsonVal.jnull => some ""
  | _ => none

/-- Decode a JSON value into a Go `int64` field: only integral numbers are
accepted. -/
def decodeInt : JsonVal → Option ℤ
  | JsonVal.jnum q => if q.den = 1 then some q.num else none
  | JsonVal.jnull => some 0
  | _ => none

/-- Decode one struct field: absent keys keep the zero value `dflt`. -/
def decodeField {α : Type} (kvs : List (String × JsonVal)) (k : String)
    (dec : JsonVal → Option α) (dflt : α) : Option α :=
  match lookupStr kvs k with
  | none => some dflt
  | some v => dec v

/-- Decode `map[string]interface` (the `Values` field): every JSON value is
accepted as-is. -/
def decodeValues : JsonVal → Option (List (String × JsonVal))
  | JsonVal.jnull => some []
  | JsonVal.jobj kvs => some kvs
  | _ => none

/-- Decode a `K6Metric` struct. -/
def decodeK6Metric : JsonVal → Option K6Metric
  | JsonVal.jnull => some ⟨"", [], ""⟩
  | JsonVal.jobj kvs =>
    match decodeField kvs "contains" decodeString "" with
    | none => none
    | some c =>
      match decodeField kvs "values" decodeValues [] with
      | none => none
      | some vs =>
        match decodeField kvs "type" decodeString "" with
        | none => none
        | some t => some ⟨c, vs, t⟩
  | _ => none

/-- Decode the `Metrics map[string]K6Metric` field. -/
def decodeMetrics : JsonVal → Option (List (String × K6Metric))
  | JsonVal.jnull => some []
  | JsonVal.jobj kvs =>
    kvs.mapM (fun p => (decodeK6Metric p.2).map (fun m => (p.1, m)))
  | _ => none

/-- Decode one element of the `Checks` slice. -/
def decodeK6Check : JsonVal → Option K6Check
  | JsonVal.jnull => some ⟨"", 0, 0⟩
  | JsonVal.jobj kvs =>
    match decodeField kvs "name" decodeString "" with
    | none => none
    | some n =>
      match decodeField kvs "passes" decodeInt 0 with
      | none => none
      | some p =>
        match decodeField kvs "fails" decodeInt 0 with
        | none => none
        | some f => some ⟨n, p, f⟩
  | _ => none

/-- Decode the `Checks` slice. -/
def decodeChecks : JsonVal → Option (List K6Check)
  | JsonVal.jnull => some []
  | JsonVal.jarr xs => xs.mapM decodeK6Check
  | _ => none

/-- Decode the anonymous `RootGroup` struct (only its `Checks` field). -/
def decodeRootGroup : JsonVal → Option (List K6Check)
  | JsonVal.jnull => some []
  | JsonVal.jobj kvs => decodeField kvs "checks" decodeChecks []
  | _ => none

/-- Model of `json.Unmarshal(jsonData, &k6Data)`: `none` is the unmarshalling
error. -/
def parseK6Data : JsonVal → Option K6Data
  | JsonVal.jnull => some ⟨[], []⟩
  | JsonVal.jobj kvs =>
    match decodeField kvs "metrics" decodeMetrics [] with
    | none => none
    | some ms =>
      match decodeField kvs "root_group" decodeRootGroup [] with
      | none => none
      | some cs => some ⟨ms, cs⟩
  | _ => none

/-- What a call on a client amounts to: a returned error, or a
`PostMessage` to the external collaborator (carrying what would be
posted).  The transport result of a post is outside the model. -/
inductive SendOutcome where
  | errNotConfigured
  | errUnmarshal
  | postText (channel : String) (text : String)
  | postBlocks (channel : String) (blocks : List Block)
  deriving Repr, DecidableEq

/-- The `(token, channel)` client of `slack.go`: `api` is `nil` until
`Configure` succeeds (modelled as the token the handle was built from). -/
structure Client where
  api : Option String
  channel : String
  deriving Repr

/-- The zero-value `Client` the module instance starts from. -/
def newClient : Client :=
  ⟨none, ""⟩

/-- Method `Configure` of `slack.go`: returns the updated client and the error;
on error the client is returned unchanged (the source assigns fields only
after both guards pass). -/
def Configure (c : Client) (token channel : String) : Client × Option String :=
  if token = "" then (c, some "slack token cannot be empty")
  else if channel = "" then (c, some "slack channel cannot be empty")
  else ({ api := some token, channel := channel }, none)

/-- Method `SendMessage` of `slack.go`. -/
def SendMessage (c : Client) (message : String) : SendOutcome :=
  if c.api.isNone then SendOutcome.errNotConfigured
  else SendOutcome.postText c.channel message

/-- Method `SendTestResults` of `slack.go`: guard, marshal/unmarshal, extraction,
block rendering, post. -/
def SendTestResults (c : Client) (data : JsonVal) : SendOutcome :=
  if c.api.isNone then SendOutcome.errNotConfigured
  else
    match parseK6Data data with
    | none => SendOutcome.errUnmarshal
    | some d => SendOutcome.postBlocks c.channel (buildTestResultBlocks d)

/-- The paging loop of `AddTestMetrics`: `for i := 0; i < len; i += 10`
with `fields[i:min(i+10, len)]` appended per iteration. -/
def sliceChunks {α : Type} : List α → List (List α)
  | [] => []
  | x :: xs => ((x :: xs).take 10) :: sliceChunks ((x :: xs).drop 10)
termination_by l => l.length
decreasing_by simp; omega

namespace V2

/-- Struct `Config` of the second source file. -/
structure Config where
  slackChannelID : String
  dashboardUrls : List (String × String)
  graphUrls : List (String × String)
  deriving Repr

/-- The `(token, Config, user)` client of the second source file.
`dashboardStart` is the `time.Now()` recorded at configure time, in Unix
seconds. -/
structure Client where
  token : String
  api : Option String
  config : Config
  dashboardStart : ℤ
  executionUser : String
  deriving Repr

/-- The zero-value client. -/
def newClient : Client :=
  ⟨"", none, ⟨"", [], []⟩, 0, ""⟩

/-- Method `Configure` of the second source file: only the token is validated;
`now` is the clock reading `time.Now()` taken inside the call. -/
def Configure (c : Client) (token : String) (config : Config) (user : String)
    (now : ℤ) : Client × Option String :=
  if token = "" then (c, some "slack token cannot be empty")
  else ({ token := token, api := some token, config := config,
          dashboardStart := now, executionUser := user }, none)

/-- Method `createDashboardLinks`: every configured dashboard URL gets a
`from_ts`/`to_ts` query string; for a start message the end bound is the
recorded start plus one hour, otherwise it is `now`. -/
def createDashboardLinks (c : Client) (isStart : Bool) (now : ℤ) :
    List (String × String) :=
  c.config.dashboardUrls.map (fun p =>
    let endTs : ℤ := if isStart then c.dashboardStart + 3600 else now
    (p.1, p.2 ++ "?from_ts=" ++ toString c.dashboardStart ++ "&to_ts=" ++ toString endTs))

/-- Method `createButtonBlocks`: one section-with-button-accessory per link, then
a trailing divider. -/
def createButtonBlocks (links : List (String × String)) : List Block :=
  links.map (fun p => Block.sectionB
      (some ("View the live test execution on the " ++ p.1 ++ " dashboard")) []
      (some ⟨p.1, p.2⟩))
  ++ [Block.divider]

/-- Method `createGraphBlocks`: a summary header and divider, then one image
block plus divider per configured graph URL. -/
def createGraphBlocks (graphs : List (String × String)) : List Block :=
  [Block.headerB ":stopwatch: Test Results Summary", Block.divider]
  ++ graphs.flatMap (fun p => [Block.imageB p.2 p.1 p.1, Block.divider])

/-- Method `SendMessage` of the second source file.  `messageType` is the Go
string type `MessageType` ("Start" or "End"); `now` is the clock reading
used by `createDashboardLinks` for an end message. -/
def SendMessage (c : Client) (messageType : String) (now : ℤ) : SendOutcome :=
  if c.api.isNone then SendOutcome.errNotConfigured
  else
    let headerBlocks : List Block :=
      [Block.headerB ("Performance Test " ++ messageType),
       Block.divider,
       Block.sectionB none ["User: " ++ c.executionUser] none,
       Block.divider]
    let tailBlocks : List Block :=
      if messageType = "Start" then
        createButtonBlocks (createDashboardLinks c true now)
      else if messageType = "End" then
        (if c.config.graphUrls.isEmpty then [] else createGraphBlocks c.config.graphUrls)
        ++ createButtonBlocks (createDashboardLinks c false now)
      else []
    SendOutcome.postBlocks c.config.slackChannelID (headerBlocks ++ tailBlocks)

/-- Method `AddTestMetrics` of the second source file.  The values of the dynamic
`map[string]interface` argument are modelled by their `%v` renderings. -/
def AddTestMetrics (c : Client) (metrics : List (String × String)) : SendOutcome :=
  if c.api.isNone then SendOutcome.errNotConfigured
  else
    let fields := metrics.map (fun p => "*" ++ p.1 ++ "*\n" ++ p.2)
    SendOutcome.postBlocks c.config.slackChannelID
      ([Block.headerB "Test Metrics", Block.divider]
       ++ (sliceChunks fields).map (fun fs => Block.sectionB none fs none))

end V2

/-- Modelled from the spec: the value formatter `formatValue(value, unit)`
is exercised by the test suite but defined in no source file under src.
Following the spec, a closed unit set selects the rendering — duration in
milliseconds ("ms"), per-second rate ("rate"), percentage scaled by 100
("percent"), byte rate auto-scaled to KB or MB ("bytes"), and a plain
integer count otherwise — while an absent value renders as the fixed
sentinel "N/A" for every unit. -/
def formatValue (value : Option ℚ) (unit : String) : String :=
  match value with
  | none => "N/A"
  | some q =>
    if unit = "ms" then fmt2 q ++ "ms"
    else if unit = "rate" then fmt2 q ++ "/s"
    else if unit = "percent" then fmt2 (q * 100) ++ "%"
    else if unit = "bytes" then
      if q ≥ 1024 * 1024 then fmt2 (q / (1024 * 1024)) ++ " MB"
      else fmt2 (q / 1024) ++ " KB"
    else fmt0 q

/-- Absence of an expected data point in a raw document: the metric is
not in the metrics map at all, or the metric exists but its values map
has no such field.  These are exactly the two missing-data shapes the
safe lookup silently recovers from (a present but non-numeric field is a
third, separate case). -/
def valueMissing (d : K6Data) (m f : String) : Prop :=
  lookupStr d.metrics m = none ∨
  ∃ metric, lookupStr d.metrics m = some metric ∧ lookupStr metric.values f = none

/-- The check pass-rate as the claim words it (for comparison with
`checkRate` from the source): `"100%"` exactly when both counts are zero,
otherwise the percentage `passes / (passes + fails) * 100` with two
decimals. -/
def specCheckRate (passes fails : ℤ) : String :=
  if passes = 0 ∧ fails = 0 then "100%"
  else fmt2 ((passes : ℚ) / ((passes : ℚ) + (fails : ℚ)) * 100) ++ "%"

/-!  Helper lemmas. -/

/-- Every group emitted by the accumulating loop has at most 10 entries,
provided the running slice holds at most 9. -/
theorem chunkLoop_bound {α : Type} (rest : List α) :
    ∀ acc : List α, acc.length ≤ 9 → ∀ g ∈ chunkLoop acc rest, g.length ≤ 10 := by
  induction rest with
  | nil =>
    intro acc hacc g hg
    unfold chunkLoop at hg
    split_ifs at hg with h
    · simp at hg
    · simp at hg
      subst hg
      omega
  | cons x xs ih =>
    intro acc hacc g hg
    unfold chunkLoop at hg
    split_ifs at hg with h
    · rcases List.mem_cons.mp hg with rfl | hg2
      · omega
      · exact ih [] (by simp) g hg2
    · refine ih (acc ++ [x]) ?_ g hg
      simp only [List.length_append, List.length_singleton] at h ⊢
      omega

/-- The number of groups the accumulating loop emits. -/
theorem chunkLoop_count {α : Type} (rest : List α) :
    ∀ acc : List α, acc.length ≤ 9 →
      (chunkLoop acc rest).length = (acc.length + rest.length + 9) / 10 := by
  induction rest with
  | nil =>
    intro acc hacc
    unfold chunkLoop
    split_ifs with h
    · simp [h]
    · simp only [List.length_singleton, List.length_nil]
      omega
  | cons x xs ih =>
    intro acc hacc
    unfold chunkLoop
    split_ifs with h
    · have ih0 := ih [] (by simp)
      simp only [List.length_nil] at ih0
      simp only [List.length_cons, ih0]
      simp only [List.length_append, List.length_singleton, List.length_nil] at h
      omega
    · have ha : (acc ++ [x]).length ≤ 9 := by
        simp only [List.length_append, List.length_singleton] at h ⊢
        omega
      rw [ih _ ha]
      simp only [List.length_append, List.length_singleton, List.length_cons,
        List.length_nil]
      omega

/-- Every group emitted by `chunk10` has at most 10 entries. -/
theorem chunk10_bound {α : Type} (l : List α) :
    ∀ g ∈ chunk10 l, g.length ≤ 10 :=
  chunkLoop_bound l [] (by simp)

/-- Loop `chunk10` emits exactly `⌈length / 10⌉` groups. -/
theorem chunk10_count {α : Type} (l : List α) :
    (chunk10 l).length = (l.length + 9) / 10 := by
  have h := chunkLoop_count l [] (by simp)
  simpa [chunk10] using h

/-- Every group emitted by the slicing loop has at most 10 entries. -/
theorem sliceChunks_bound {α : Type} (l : List α) :
    ∀ g ∈ sliceChunks l, g.length ≤ 10 := by
  induction l using sliceChunks.induct with
  | case1 => intro g hg; simp [sliceChunks] at hg
  | case2 x xs ih =>
    intro g hg
    rw [sliceChunks] at hg
    rcases List.mem_cons.mp hg with rfl | hg2
    · simp
    · exact ih g hg2

/-- The slicing loop emits exactly `⌈length / 10⌉` groups. -/
theorem sliceChunks_count {α : Type} (l : List α) :
    (sliceChunks l).length = (l.length + 9) / 10 := by
  induction l using sliceChunks.induct with
  | case1 => simp [sliceChunks]
  | case2 x xs ih =>
    rw [sliceChunks]
    simp only [List.length_cons, ih, List.length_drop]
    omega

/-- Evaluation of `fmt2` at zero. -/
theorem fmt2_zero : fmt2 0 = "0.00" := by
  have h : round ((0 : ℚ) * 100) = 0 := by norm_num
  simp only [fmt2, h]
  decide

/-- Evaluation of `formatDuration` at zero. -/
theorem formatDuration_zero : formatDuration 0 = "0.00ms" := by
  rw [formatDuration, fmt2_zero]
  decide

/-- Evaluation of `fmt0` at zero. -/
theorem fmt0_zero : fmt0 0 = "0" := by
  have h : round ((0 : ℚ)) = 0 := by norm_num
  simp only [fmt0, h]
  decide

/-- Evaluation of the throughput row rendering at zero. -/
theorem kbs_zero : fmt2 ((0 : ℚ) / 1024) ++ " KB/s" = "0.00 KB/s" := by
  have h : ((0 : ℚ)) / 1024 = 0 := by norm_num
  rw [h, fmt2_zero]
  decide

/-- Evaluation of the per-second rate row rendering at zero. -/
theorem rate_zero : fmt2 (0 : ℚ) ++ "/s" = "0.00/s" := by
  rw [fmt2_zero]
  decide

/-- Evaluation of the success-rate row rendering at a zero failure
rate. -/
theorem success_zero : fmt2 (100 - (0 : ℚ) * 100) ++ "%" = "100.00%" := by
  have h : (100 : ℚ) - 0 * 100 = 100 := by norm_num
  have h2 : round ((100 : ℚ) * 100) = 10000 := by norm_num [round_eq]
  rw [h]
  simp only [fmt2, h2]
  decide

/-- The first extracted row is always present, bound to the formatted
average request duration. -/
theorem extractMetrics_head (d : K6Data) :
    lookupStr (extractMetrics d) "Response Time (avg)" =
      some (formatDuration (getMetricValue d "http_req_duration" "avg")) := rfl

/-- A document without the metric yields `0` from the safe lookup. -/
theorem getMetricValue_of_metric_absent (d : K6Data) (m f : String)
    (h : lookupStr d.metrics m = none) : getMetricValue d m f = 0 := by
  simp [getMetricValue, h]

/-- Evaluation of the check percentage at 8 passes and 2 fails. -/
theorem fmt2_eight_of_ten : fmt2 ((8 : ℚ) / ((8 + 2 : ℤ) : ℚ) * 100) ++ "%" = "80.00%" := by
  have h : round (((8 : ℚ) / ((8 + 2 : ℤ) : ℚ) * 100) * 100) = 8000 := by
    norm_num [round_eq]
  simp only [fmt2, h]
  decide

/-!  Claims. -/

/-- C5: the value formatter renders 76.2412846153846 as "76.24ms" for the
duration unit, 12.642716822593506 as "12.64/s" for the rate unit, 0.95 as
"95.00%" for the percentage unit, 1024.0 as "1.00 KB" and 2890872.0 as
"2.76 MB" for the auto-scaling byte-rate unit, and an absent value as
"N/A" for every unit; on the duration unit it agrees with the source
formatter `formatDuration`. -/
theorem formatValue_examples :
    formatValue (some 76.2412846153846) "ms" = "76.24ms" ∧
    formatValue (some 12.642716822593506) "rate" = "12.64/s" ∧
    formatValue (some 0.95) "percent" = "95.00%" ∧
    formatValue (some 1024) "bytes" = "1.00 KB" ∧
    formatValue (some 2890872) "bytes" = "2.76 MB" ∧
    (∀ u : String, formatValue none u = "N/A") ∧
    (∀ q : ℚ, formatValue (some q) "ms" = formatDuration q) := by
  refine ⟨?_, ?_, ?_, ?_, ?_, fun u => rfl, fun q => rfl⟩
  · have h : round ((76.2412846153846 : ℚ) * 100) = 7624 := by norm_num [round_eq]
    simp only [formatValue, reduceIte]
    simp only [fmt2, h]
    decide
  · have h : round ((12.642716822593506 : ℚ) * 100) = 1264 := by norm_num [round_eq]
    simp only [formatValue, reduceIte]
    simp only [fmt2, h]
    decide
  · have h : round ((0.95 : ℚ) * 100 * 100) = 9500 := by norm_num [round_eq]
    simp only [formatValue, reduceIte]
    simp only [fmt2, h]
    decide
  · have h : round ((1024 : ℚ) / 1024 * 100) = 100 := by norm_num [round_eq]
    simp only [formatValue]
    rw [if_neg (by decide : ¬("bytes" = "ms")), if_neg (by decide : ¬("bytes" = "rate")),
      if_neg (by decide : ¬("bytes" = "percent")), if_pos (trivial : True),
      if_neg (by norm_num : ¬((1024 : ℚ) ≥ 1024 * 1024))]
    simp only [fmt2, h]
    decide
  · have h : round ((2890872 : ℚ) / (1024 * 1024) * 100) = 276 := by norm_num [round_eq]
    simp only [formatValue]
    rw [if_neg (by decide : ¬("bytes" = "ms")), if_neg (by decide : ¬("bytes" = "rate")),
      if_neg (by decide : ¬("bytes" = "percent")), if_pos (trivial : True),
      if_pos (by norm_num : (2890872 : ℚ) ≥ 1024 * 1024)]
    simp only [fmt2, h]
    decide

/-- C6 counterexample: for the check record with 0 passes and -1 fails
(representable, since the parsed counts are signed 64-bit integers), the
source computes "100%" while the claimed formula — "100%" only when both
counts are zero, otherwise the percentage — yields "0.00%". -/
theorem checkRate_claim_false :
    checkRate 0 (-1) = "100%" ∧ specCheckRate 0 (-1) = "0.00%" ∧
    checkRate 0 (-1) ≠ specCheckRate 0 (-1) := by
  have h1 : checkRate 0 (-1) = "100%" := by
    rw [checkRate]
    norm_num
  have h2 : specCheckRate 0 (-1) = "0.00%" := by
    rw [specCheckRate, if_neg (by norm_num)]
    have h : (((0 : ℤ) : ℚ)) / ((((0 : ℤ) : ℚ)) + (((-1 : ℤ) : ℚ))) * 100 = 0 := by
      norm_num
    rw [h, fmt2_zero]
    decide
  exact ⟨h1, h2, by rw [h1, h2]; decide⟩

/-- C6 (amended): the pass-rate string is the formatted percentage
`passes / (passes + fails) * 100` whenever `passes + fails > 0`, and the
fixed "100%" whenever `passes + fails ≤ 0` (in particular when both
counts are zero); 8 passes and 2 fails yield "80.00%" (witness). -/
theorem checkRate_threshold (p f : ℤ) :
    (0 < p + f → checkRate p f = fmt2 ((p : ℚ) / ((p + f : ℤ) : ℚ) * 100) ++ "%") ∧
    (p + f ≤ 0 → checkRate p f = "100%") := by
  constructor
  · intro h
    simp only [checkRate]
    rw [if_pos (by exact_mod_cast h)]
  · intro h
    simp only [checkRate]
    rw [if_neg (not_lt.mpr (by exact_mod_cast h))]

/-- C6 witness: the amended statement evaluated at 8 passes, 2 fails. -/
theorem checkRate_threshold_witness : checkRate 8 2 = "80.00%" :=
  ((checkRate_threshold 8 2).1 (by norm_num)).trans fmt2_eight_of_ten

/-- C7 counterexample: the `(token, Config, user)` variant of `Configure`
accepts an empty destination channel identifier — the call succeeds and
stores the empty channel, contradicting the claim that `Configure` fails
whenever the destination is empty. -/
theorem configure_claim_false :
    (V2.Configure V2.newClient "tok" ⟨"", [], []⟩ "user" 0).2 = none ∧
    ((V2.Configure V2.newClient "tok" ⟨"", [], []⟩ "user" 0).1).config.slackChannelID = "" := by
  constructor <;> rfl

/-- C7 (amended): the `(token, channel)` variant of `Configure` errors
exactly when the token or the channel is empty, mutating nothing on
error and storing the pair on success; the `(token, Config, user)`
variant validates only the token — it errors exactly when the token is
empty, mutating nothing in that case, and accepts any channel value in
the config. -/
theorem configure_guards (c : Client) (t ch : String) (c2 : V2.Client)
    (cfg : V2.Config) (u : String) (now : ℤ) :
    ((Configure c t ch).2 ≠ none ↔ t = "" ∨ ch = "") ∧
    (t = "" ∨ ch = "" → (Configure c t ch).1 = c) ∧
    (¬(t = "" ∨ ch = "") → Configure c t ch = ({ api := some t, channel := ch }, none)) ∧
    ((V2.Configure c2 t cfg u now).2 ≠ none ↔ t = "") ∧
    (t = "" → (V2.Configure c2 t cfg u now).1 = c2) := by
  unfold Configure V2.Configure
  by_cases ht : t = "" <;> by_cases hch : ch = "" <;> simp [ht, hch]

/-- C7 witness: a failing configuration leaves both client variants
unchanged. -/
theorem configure_guards_witness :
    (Configure newClient "" "chan").1 = newClient ∧
    (V2.Configure V2.newClient "" ⟨"chan", [], []⟩ "u" 7).1 = V2.newClient :=
  ⟨(configure_guards newClient "" "chan" V2.newClient ⟨"chan", [], []⟩ "u" 7).2.1 (Or.inl rfl),
   (configure_guards newClient "" "chan" V2.newClient ⟨"chan", [], []⟩ "u" 7).2.2.2.2 rfl⟩

/-- C8: on a client whose api handle is nil (no successful `Configure`),
both `SendMessage` and `SendTestResults` return the not-configured error
and post nothing. -/
theorem send_before_configure (c : Client) (h : c.api = none) (message : String)
    (data : JsonVal) :
    SendMessage c message = SendOutcome.errNotConfigured ∧
    SendTestResults c data = SendOutcome.errNotConfigured := by
  constructor <;> simp [SendMessage, SendTestResults, h]

/-- C8 witness: the zero-value client at concrete arguments. -/
theorem send_before_configure_witness :
    SendMessage newClient "hello" = SendOutcome.errNotConfigured ∧
    SendTestResults newClient (JsonVal.jobj []) = SendOutcome.errNotConfigured :=
  send_before_configure newClient rfl "hello" (JsonVal.jobj [])

/-- C1: on a configured client, extraction and block rendering are total —
every parseable document yields a posted block sequence, an unparseable
document yields exactly the unmarshal error, and no other outcome
(not-configured error, plain-text post) can occur; the model has no
formatting-error constructor at all, matching the source, which has no
error return between unmarshalling and the external post. -/
theorem sendTestResults_total (c : Client) (a : String) (h : c.api = some a)
    (data : JsonVal) :
    (∀ d, parseK6Data data = some d →
        SendTestResults c data = SendOutcome.postBlocks c.channel (buildTestResultBlocks d)) ∧
    (parseK6Data data = none → SendTestResults c data = SendOutcome.errUnmarshal) ∧
    SendTestResults c data ≠ SendOutcome.errNotConfigured ∧
    (∀ ch msg, SendTestResults c data ≠ SendOutcome.postText ch msg) := by
  have hapi : c.api.isNone = false := by rw [h]; rfl
  refine ⟨fun d hd => ?_, fun hn => ?_, ?_, fun ch msg => ?_⟩
  · simp [SendTestResults, hapi, hd]
  · simp [SendTestResults, hapi, hn]
  · cases hp : parseK6Data data <;> simp [SendTestResults, hapi, hp]
  · cases hp : parseK6Data data <;> simp [SendTestResults, hapi, hp]

/-- C1 witness: the empty document on a configured client renders and is
posted. -/
theorem sendTestResults_total_witness :
    SendTestResults ⟨some "tok", "chan"⟩ (JsonVal.jobj []) =
      SendOutcome.postBlocks "chan" (buildTestResultBlocks ⟨[], []⟩) :=
  (sendTestResults_total ⟨some "tok", "chan"⟩ "tok" rfl (JsonVal.jobj [])).1 ⟨[], []⟩ rfl

/-- C2 counterexample: for the document with no metrics at all, the
"Response Time (avg)" entry is the formatted zero "0.00ms", not the "N/A"
sentinel the claim requires. -/
theorem missing_metric_not_NA :
    lookupStr (extractMetrics ⟨[], []⟩) "Response Time (avg)" = some "0.00ms" ∧
    lookupStr (extractMetrics ⟨[], []⟩) "Response Time (avg)" ≠ some "N/A" := by
  have e : lookupStr (extractMetrics ⟨[], []⟩) "Response Time (avg)" = some "0.00ms" := by
    rw [extractMetrics_head, getMetricValue_of_metric_absent ⟨[], []⟩ _ _ rfl,
      formatDuration_zero]
  exact ⟨e, by rw [e]; decide⟩

/-- C2 (amended): whenever an expected metric is absent, or the metric is
present but the queried value field is absent, the safe lookup yields 0,
and the corresponding extracted row — each of the twenty rows is listed —
equals the formatting of the zero value for that row ("0.00ms" for the
duration rows, "0.00 KB/s" for the throughput rows, "0" for the count
rows, "0.00/s" for the per-second rows, "100.00%" for the success-rate
row) rather than "N/A"; no row is ever omitted (the mapping always has
exactly twenty rows), and the call still succeeds apart from the external
send result. -/
theorem missing_metric_zero_entry (d : K6Data) :
    (∀ m f, valueMissing d m f → getMetricValue d m f = 0) ∧
    (extractMetrics d).length = 20 ∧
    (valueMissing d "http_req_duration" "avg" →
      lookupStr (extractMetrics d) "Response Time (avg)" = some "0.00ms") ∧
    (valueMissing d "http_req_duration" "min" →
      lookupStr (extractMetrics d) "Response Time (min)" = some "0.00ms") ∧
    (valueMissing d "http_req_duration" "med" →
      lookupStr (extractMetrics d) "Response Time (med)" = some "0.00ms") ∧
    (valueMissing d "http_req_duration" "max" →
      lookupStr (extractMetrics d) "Response Time (max)" = some "0.00ms") ∧
    (valueMissing d "http_req_duration" "p(90)" →
      lookupStr (extractMetrics d) "Response Time (p90)" = some "0.00ms") ∧
    (valueMissing d "http_req_duration" "p(95)" →
      lookupStr (extractMetrics d) "Response Time (p95)" = some "0.00ms") ∧
    (valueMissing d "http_req_waiting" "avg" →
      lookupStr (extractMetrics d) "Time to First Byte (avg)" = some "0.00ms") ∧
    (valueMissing d "http_req_connecting" "avg" →
      lookupStr (extractMetrics d) "Connection Time (avg)" = some "0.00ms") ∧
    (valueMissing d "http_req_tls_handshaking" "avg" →
      lookupStr (extractMetrics d) "TLS Handshake (avg)" = some "0.00ms") ∧
    (valueMissing d "http_req_sending" "avg" →
      lookupStr (extractMetrics d) "Sending Time (avg)" = some "0.00ms") ∧
    (valueMissing d "http_req_receiving" "avg" →
      lookupStr (extractMetrics d) "Receiving Time (avg)" = some "0.00ms") ∧
    (valueMissing d "http_req_blocked" "avg" →
      lookupStr (extractMetrics d) "Blocking Time (avg)" = some "0.00ms") ∧
    (valueMissing d "data_received" "rate" →
      lookupStr (extractMetrics d) "Data Received" = some "0.00 KB/s") ∧
    (valueMissing d "data_sent" "rate" →
      lookupStr (extractMetrics d) "Data Sent" = some "0.00 KB/s") ∧
    (valueMissing d "http_reqs" "count" →
      lookupStr (extractMetrics d) "Total Requests" = some "0") ∧
    (valueMissing d "http_reqs" "rate" →
      lookupStr (extractMetrics d) "Request Rate" = some "0.00/s") ∧
    (valueMissing d "iterations" "count" →
      lookupStr (extractMetrics d) "Iterations" = some "0") ∧
    (valueMissing d "iterations" "rate" →
      lookupStr (extractMetrics d) "Iteration Rate" = some "0.00/s") ∧
    (valueMissing d "vus" "value" →
      lookupStr (extractMetrics d) "Virtual Users" = some "0") ∧
    (valueMissing d "http_req_failed" "rate" →
      lookupStr (extractMetrics d) "Success Rate" = some "100.00%") ∧
    (∀ (c : Client) (a : String) (data : JsonVal), c.api = some a →
      parseK6Data data = some d →
      SendTestResults c data = SendOutcome.postBlocks c.channel (buildTestResultBlocks d)) := by
  have hz : ∀ m f, valueMissing d m f → getMetricValue d m f = 0 := by
    intro m f h
    rcases h with h | ⟨metric, h1, h2⟩
    · simp [getMetricValue, h]
    · simp [getMetricValue, h1, h2]
  refine ⟨hz, by unfold extractMetrics; rfl, ?_, ?_, ?_, ?_, ?_, ?_, ?_, ?_, ?_, ?_, ?_, ?_,
    ?_, ?_, ?_, ?_, ?_, ?_, ?_, ?_, fun c a data ha hd => ?_⟩
  · intro h
    show some (formatDuration (getMetricValue d "http_req_duration" "avg")) = some "0.00ms"
    rw [hz _ _ h, formatDuration_zero]
  · intro h
    show some (formatDuration (getMetricValue d "http_req_duration" "min")) = some "0.00ms"
    rw [hz _ _ h, formatDuration_zero]
  · intro h
    show some (formatDuration (getMetricValue d "http_req_duration" "med")) = some "0.00ms"
    rw [hz _ _ h, formatDuration_zero]
  · intro h
    show some (formatDuration (getMetricValue d "http_req_duration" "max")) = some "0.00ms"
    rw [hz _ _ h, formatDuration_zero]
  · intro h
    show some (formatDuration (getMetricValue d "http_req_duration" "p(90)")) = some "0.00ms"
    rw [hz _ _ h, formatDuration_zero]
  · intro h
    show some (formatDuration (getMetricValue d "http_req_duration" "p(95)")) = some "0.00ms"
    rw [hz _ _ h, formatDuration_zero]
  · intro h
    show some (formatDuration (getMetricValue d "http_req_waiting" "avg")) = some "0.00ms"
    rw [hz _ _ h, formatDuration_zero]
  · intro h
    show some (formatDuration (getMetricValue d "http_req_connecting" "avg")) = some "0.00ms"
    rw [hz _ _ h, formatDuration_zero]
  · intro h
    show some (formatDuration (getMetricValue d "http_req_tls_handshaking" "avg")) =
      some "0.00ms"
    rw [hz _ _ h, formatDuration_zero]
  · intro h
    show some (formatDuration (getMetricValue d "http_req_sending" "avg")) = some "0.00ms"
    rw [hz _ _ h, formatDuration_zero]
  · intro h
    show some (formatDuration (getMetricValue d "http_req_receiving" "avg")) = some "0.00ms"
    rw [hz _ _ h, formatDuration_zero]
  · intro h
    show some (formatDuration (getMetricValue d "http_req_blocked" "avg")) = some "0.00ms"
    rw [hz _ _ h, formatDuration_zero]
  · intro h
    show some (fmt2 (getMetricValue d "data_received" "rate" / 1024) ++ " KB/s") =
      some "0.00 KB/s"
    rw [hz _ _ h, kbs_zero]
  · intro h
    show some (fmt2 (getMetricValue d "data_sent" "rate" / 1024) ++ " KB/s") =
      some "0.00 KB/s"
    rw [hz _ _ h, kbs_zero]
  · intro h
    show some (fmt0 (getMetricValue d "http_reqs" "count")) = some "0"
    rw [hz _ _ h, fmt0_zero]
  · intro h
    show some (fmt2 (getMetricValue d "http_reqs" "rate") ++ "/s") = some "0.00/s"
    rw [hz _ _ h, rate_zero]
  · intro h
    show some (fmt0 (getMetricValue d "iterations" "count")) = some "0"
    rw [hz _ _ h, fmt0_zero]
  · intro h
    show some (fmt2 (getMetricValue d "iterations" "rate") ++ "/s") = some "0.00/s"
    rw [hz _ _ h, rate_zero]
  · intro h
    show some (fmt0 (getMetricValue d "vus" "value")) = some "0"
    rw [hz _ _ h, fmt0_zero]
  · intro h
    show some (fmt2 (100 - getMetricValue d "http_req_failed" "rate" * 100) ++ "%") =
      some "100.00%"
    rw [hz _ _ h, success_zero]
  · have hapi : c.api.isNone = false := by rw [ha]; rfl
    simp [SendTestResults, hapi, hd]

/-- C2 witness: a document with no metrics map at all hits the
metric-absent case for the "Response Time (avg)" row, and a document
whose data_sent metric is present with an empty values map hits the
field-absent case for the "Data Sent" row; both rows are the zero
formatting and the mapping has its twenty rows. -/
theorem missing_metric_zero_entry_witness :
    lookupStr (extractMetrics ⟨[], [⟨"check a", 1, 0⟩]⟩) "Response Time (avg)" =
      some "0.00ms" ∧
    lookupStr (extractMetrics ⟨[("data_sent", ⟨"data", [], "counter"⟩)], []⟩) "Data Sent" =
      some "0.00 KB/s" ∧
    (extractMetrics ⟨[], [⟨"check a", 1, 0⟩]⟩).length = 20 := by
  obtain ⟨hz, hlen, r01, r02, r03, r04, r05, r06, r07, r08, r09, r10, r11, r12, r13, r14,
    r15, r16, r17, r18, r19, r20, hsend⟩ :=
    missing_metric_zero_entry ⟨[("data_sent", ⟨"data", [], "counter"⟩)], []⟩
  obtain ⟨hz2, hlen2, s01, -⟩ := missing_metric_zero_entry ⟨[], [⟨"check a", 1, 0⟩]⟩
  exact ⟨s01 (Or.inl rfl), r14 (Or.inr ⟨⟨"data", [], "counter"⟩, rfl, rfl⟩), hlen2⟩

/-- The safe lookup is positive exactly when the metric is present and the
field holds a positive number. -/
theorem getMetricValue_pos_iff (d : K6Data) (m f : String) :
    0 < getMetricValue d m f ↔
      ∃ metric q, lookupStr d.metrics m = some metric ∧
        lookupStr metric.values f = some (JsonVal.jnum q) ∧ 0 < q := by
  unfold getMetricValue
  cases hm : lookupStr d.metrics m with
  | none => simp [hm]
  | some metric =>
    cases hv : lookupStr metric.values f with
    | none => simp [hv]
    | some v =>
      cases v <;> simp [hv]

/-- C3: the overall status is "failed" exactly when the document has an
http_req_failed metric whose values.rate field is a number greater than
zero, and "passed" in every other case (metric absent, field absent,
non-numeric, zero or negative). -/
theorem overallStatus_failed_iff (d : K6Data) :
    (overallStatus d = "failed" ↔
      ∃ metric q, lookupStr d.metrics "http_req_failed" = some metric ∧
        lookupStr metric.values "rate" = some (JsonVal.jnum q) ∧ 0 < q) ∧
    (overallStatus d = "passed" ↔
      ¬ ∃ metric q, lookupStr d.metrics "http_req_failed" = some metric ∧
        lookupStr metric.values "rate" = some (JsonVal.jnum q) ∧ 0 < q) := by
  have key := getMetricValue_pos_iff d "http_req_failed" "rate"
  unfold overallStatus
  split_ifs with hpos
  · exact ⟨iff_of_true rfl (key.mp hpos),
      iff_of_false (by decide) (not_not_intro (key.mp hpos))⟩
  · exact ⟨iff_of_false (by decide) (fun hx => hpos (key.mpr hx)),
      iff_of_true rfl (fun hx => hpos (key.mpr hx))⟩

/-- C3 witness: a document with a positive failure rate is reported
failed. -/
theorem overallStatus_failed_iff_witness :
    overallStatus ⟨[("http_req_failed",
      ⟨"default", [("rate", JsonVal.jnum (1/2))], "rate"⟩)], []⟩ = "failed" :=
  (overallStatus_failed_iff _).1.mpr
    ⟨⟨"default", [("rate", JsonVal.jnum (1/2))], "rate"⟩, 1/2, rfl, rfl, by norm_num⟩

/-- C10: the safe lookup returns the stored number when the metric exists
and the field holds a number, and 0 in every other case (metric absent,
field absent, or non-numeric field); a missing duration metric is hence
rendered as the formatting of 0, "0.00ms". -/
theorem getMetricValue_safe (d : K6Data) (m f : String) :
    (∀ metric q, lookupStr d.metrics m = some metric →
        lookupStr metric.values f = some (JsonVal.jnum q) → getMetricValue d m f = q) ∧
    (lookupStr d.metrics m = none → getMetricValue d m f = 0) ∧
    (∀ metric, lookupStr d.metrics m = some metric →
        lookupStr metric.values f = none → getMetricValue d m f = 0) ∧
    (∀ metric v, lookupStr d.metrics m = some metric →
        lookupStr metric.values f = some v → (∀ q, v ≠ JsonVal.jnum q) →
        getMetricValue d m f = 0) ∧
    (lookupStr d.metrics "http_req_duration" = none →
        lookupStr (extractMetrics d) "Response Time (avg)" = some "0.00ms") := by
  refine ⟨fun metric q h1 h2 => ?_, fun h1 => ?_, fun metric h1 h2 => ?_,
    fun metric v h1 h2 hv => ?_, fun h1 => ?_⟩
  · simp [getMetricValue, h1, h2]
  · simp [getMetricValue, h1]
  · simp [getMetricValue, h1, h2]
  · cases v with
    | jnull => simp [getMetricValue, h1, h2]
    | jbool b => simp [getMetricValue, h1, h2]
    | jnum q => exact absurd rfl (hv q)
    | jstr s => simp [getMetricValue, h1, h2]
    | jarr xs => simp [getMetricValue, h1, h2]
    | jobj kvs => simp [getMetricValue, h1, h2]
  · rw [extractMetrics_head, getMetricValue_of_metric_absent d _ _ h1, formatDuration_zero]

/-- C10 witness: a stored count is returned as stored; an absent metric
yields 0. -/
theorem getMetricValue_safe_witness :
    getMetricValue ⟨[("http_reqs", ⟨"default", [("count", JsonVal.jnum 130)], "counter"⟩)], []⟩
        "http_reqs" "count" = 130 ∧
    getMetricValue ⟨[], []⟩ "http_reqs" "count" = 0 :=
  ⟨(getMetricValue_safe
      ⟨[("http_reqs", ⟨"default", [("count", JsonVal.jnum 130)], "counter"⟩)], []⟩
      "http_reqs" "count").1 ⟨"default", [("count", JsonVal.jnum 130)], "counter"⟩ 130 rfl rfl,
   (getMetricValue_safe ⟨[], []⟩ "http_reqs" "count").2.1 rfl⟩

/-- C4: field-group chunking never emits a group with more than 10
entries and emits exactly `⌈N / 10⌉` groups — for the accumulate-and-flush
loop of `SendTestResults` (`chunk10`, used for both the metric and the
check field-groups) and for the slice loop of `AddTestMetrics`
(`sliceChunks`); consequently every section block of the rendered result
message carries at most 10 fields, and the metrics section has
`⌈N / 10⌉` groups for the `N` extracted metrics. -/
theorem fieldGroup_chunking (l : List String) (d : K6Data) :
    (∀ g ∈ chunk10 l, g.length ≤ 10) ∧
    (chunk10 l).length = (l.length + 9) / 10 ∧
    (∀ g ∈ sliceChunks l, g.length ≤ 10) ∧
    (sliceChunks l).length = (l.length + 9) / 10 ∧
    (∀ t fs a, Block.sectionB t fs a ∈ buildTestResultBlocks d → fs.length ≤ 10) ∧
    (chunk10 ((extractMetrics d).map metricField)).length =
      ((extractMetrics d).length + 9) / 10 := by
  refine ⟨chunk10_bound l, chunk10_count l, sliceChunks_bound l, sliceChunks_count l,
    ?_, by rw [chunk10_count, List.length_map]⟩
  intro t fs a hmem
  simp only [buildTestResultBlocks] at hmem
  rcases List.mem_append.mp hmem with h1 | h2
  · rcases List.mem_append.mp h1 with h3 | h4
    · simp only [List.mem_cons, List.not_mem_nil, or_false] at h3
      rcases h3 with h | h | h | h | h | h <;> simp at h <;>
        (obtain ⟨-, rfl, -⟩ := h; simp)
    · rcases List.mem_map.mp h4 with ⟨g, hg, heq⟩
      injection heq with h1 h2 h3
      subst h2
      exact chunk10_bound _ g hg
  · by_cases hch : (extractChecks d).isEmpty
    · rw [if_pos hch] at h2
      cases h2
    · rw [if_neg hch] at h2
      rcases List.mem_append.mp h2 with h5 | h6
      · simp only [List.mem_cons, List.not_mem_nil, or_false] at h5
        rcases h5 with h | h <;> simp at h
        obtain ⟨-, rfl, -⟩ := h
        simp
      · rcases List.mem_map.mp h6 with ⟨g, hg, heq⟩
        injection heq with h1 h2 h3
        subst h2
        exact chunk10_bound _ g hg

/-- C4 witness: twelve metric labels produce two groups under both
chunking loops, the first of which has ten entries. -/
theorem fieldGroup_chunking_witness :
    (chunk10 ["m01", "m02", "m03", "m04", "m05", "m06", "m07", "m08", "m09", "m10",
      "m11", "m12"]).length = 2 ∧
    (sliceChunks ["m01", "m02", "m03", "m04", "m05", "m06", "m07", "m08", "m09", "m10",
      "m11", "m12"]).length = 2 ∧
    (["m01", "m02", "m03", "m04", "m05", "m06", "m07", "m08", "m09", "m10"] :
      List String).length ≤ 10 :=
  ⟨((fieldGroup_chunking ["m01", "m02", "m03", "m04", "m05", "m06", "m07", "m08", "m09",
      "m10", "m11", "m12"] ⟨[], []⟩).2.1).trans (by decide),
   ((fieldGroup_chunking ["m01", "m02", "m03", "m04", "m05", "m06", "m07", "m08", "m09",
      "m10", "m11", "m12"] ⟨[], []⟩).2.2.2.1).trans (by decide),
   (fieldGroup_chunking ["m01", "m02", "m03", "m04", "m05", "m06", "m07", "m08", "m09",
      "m10", "m11", "m12"] ⟨[], []⟩).1
     ["m01", "m02", "m03", "m04", "m05", "m06", "m07", "m08", "m09", "m10"] (by decide)⟩

/-- C9: on a configured client, a Start message consists of the title
block, a divider, the user-attribution line, a divider, then one
dashboard button block per configured dashboard whose URL carries
`from_ts` = configure-time and `to_ts` = configure-time + 3600 seconds,
then a divider; an End message carries the same prefix, then — when any
graph is configured — the graph summary header, a divider and one image
block plus divider per configured graph URL, then one dashboard button
block per configured dashboard with `from_ts` = configure-time and
`to_ts` = the time of the call, then a divider. -/
theorem sendMessage_start_end (c : V2.Client) (a : String) (h : c.api = some a)
    (now : ℤ) :
    V2.SendMessage c "Start" now = SendOutcome.postBlocks c.config.slackChannelID
      ([Block.headerB ("Performance Test " ++ "Start"), Block.divider,
        Block.sectionB none ["User: " ++ c.executionUser] none, Block.divider]
       ++ (c.config.dashboardUrls.map (fun p => Block.sectionB
            (some ("View the live test execution on the " ++ p.1 ++ " dashboard")) []
            (some ⟨p.1, p.2 ++ "?from_ts=" ++ toString c.dashboardStart ++ "&to_ts=" ++
              toString (c.dashboardStart + 3600)⟩))
          ++ [Block.divider])) ∧
    V2.SendMessage c "End" now = SendOutcome.postBlocks c.config.slackChannelID
      ([Block.headerB ("Performance Test " ++ "End"), Block.divider,
        Block.sectionB none ["User: " ++ c.executionUser] none, Block.divider]
       ++ ((if c.config.graphUrls.isEmpty then [] else
             [Block.headerB ":stopwatch: Test Results Summary", Block.divider]
             ++ c.config.graphUrls.flatMap (fun p => [Block.imageB p.2 p.1 p.1, Block.divider]))
           ++ (c.config.dashboardUrls.map (fun p => Block.sectionB
                (some ("View the live test execution on the " ++ p.1 ++ " dashboard")) []
                (some ⟨p.1, p.2 ++ "?from_ts=" ++ toString c.dashboardStart ++ "&to_ts=" ++
                  toString now⟩))
              ++ [Block.divider]))) := by
  have hapi : c.api.isNone = false := by rw [h]; rfl
  constructor
  · simp only [V2.SendMessage, hapi, Bool.false_eq_true, if_false]
    simp [V2.createButtonBlocks, V2.createDashboardLinks, V2.createGraphBlocks,
      List.map_map, Function.comp]
  · simp only [V2.SendMessage, hapi, Bool.false_eq_true, if_false]
    simp [V2.createButtonBlocks, V2.createDashboardLinks, V2.createGraphBlocks,
      List.map_map, Function.comp]

/-- C9 witness: a concrete configured client with one dashboard and one
graph, at configure-time 1000 and call-time 5000. -/
theorem sendMessage_start_end_witness :
    V2.SendMessage ⟨"tok", some "tok", ⟨"chan", [("K6", "dash")], [("Trend", "graph")]⟩,
        1000, "alice"⟩ "Start" 5000 =
      SendOutcome.postBlocks "chan"
        [Block.headerB "Performance Test Start", Block.divider,
         Block.sectionB none ["User: alice"] none, Block.divider,
         Block.sectionB (some "View the live test execution on the K6 dashboard") []
           (some ⟨"K6", "dash?from_ts=1000&to_ts=4600"⟩),
         Block.divider] ∧
    V2.SendMessage ⟨"tok", some "tok", ⟨"chan", [("K6", "dash")], [("Trend", "graph")]⟩,
        1000, "alice"⟩ "End" 5000 =
      SendOutcome.postBlocks "chan"
        [Block.headerB "Performance Test End", Block.divider,
         Block.sectionB none ["User: alice"] none, Block.divider,
         Block.headerB ":stopwatch: Test Results Summary", Block.divider,
         Block.imageB "graph" "Trend" "Trend", Block.divider,
         Block.sectionB (some "View the live test execution on the K6 dashboard") []
           (some ⟨"K6", "dash?from_ts=1000&to_ts=5000"⟩),
         Block.divider] := by
  have hs := sendMessage_start_end
    ⟨"tok", some "tok", ⟨"chan", [("K6", "dash")], [("Trend", "graph")]⟩, 1000, "alice"⟩
    "tok" rfl 5000
  exact ⟨hs.1.trans (by decide), hs.2.trans (by decide)⟩

end XK6Slack
